import Mathlib

/-!
Verification of `songbook/song.py` (ukebook-md).

The Python module wraps ukedown markup in a `Song` object.  The markup
renderer (`markdown` + `ukedown.udn`) and the HTML reader (BeautifulSoup
over lxml) are external collaborators: we model the rendered document as a
tree of HTML nodes (the children of the `<body>` element that lxml always
produces), and the renderer as an abstract deterministic function from
markup text to such a tree.  `Song.__parse` and the accessor methods are
translated directly from the source; Python exceptions are modelled with
`Except`.
-/

namespace Songbook

/-- An HTML node as seen through BeautifulSoup: either a navigable string
or an element with a tag name, a (possibly empty) multi-valued `class`
attribute, and an ordered list of children. -/
inductive Node where
  | text (s : String)
  | elem (tag : String) (classes : List String) (children : List Node)

mutual

/-- BeautifulSoup `.text` / `get_text()`: the concatenation of every
string descendant of a node, in document order, with no separators. -/
def Node.innerText : Node → String
  | .text s => s
  | .elem _ _ cs => Node.innerTextList cs
termination_by structural n => n

/-- `.text` over a list of sibling nodes, in order. -/
def Node.innerTextList : List Node → String
  | [] => ""
  | n :: ns => Node.innerText n ++ Node.innerTextList ns
termination_by structural ns => ns

end

/-- Serialization of the `class` attribute used by `Node.str`. -/
def classAttr : List String → String
  | [] => ""
  | cs => " class=\"" ++ String.intercalate " " cs ++ "\""

mutual

/-- Python `str(node)`: serialize a node back to its HTML string form. -/
def Node.str : Node → String
  | .text s => s
  | .elem t c cs => "<" ++ t ++ classAttr c ++ ">" ++ Node.strList cs ++ "</" ++ t ++ ">"
termination_by structural n => n

/-- Serialize a list of sibling nodes, concatenated in order. -/
def Node.strList : List Node → String
  | [] => ""
  | n :: ns => Node.str n ++ Node.strList ns
termination_by structural ns => ns

end

/-- Whether a node is a level-1 heading element. -/
def isH1 : Node → Bool
  | .elem t _ _ => t == "h1"
  | .text _ => false

mutual

/-- Whether a node is, or contains, a level-1 heading. -/
def hasH1 : Node → Bool
  | .text _ => false
  | .elem t _ cs => t == "h1" || hasH1List cs
termination_by structural n => n

/-- Whether any node of a forest is, or contains, a level-1 heading. -/
def hasH1List : List Node → Bool
  | [] => false
  | n :: ns => hasH1 n || hasH1List ns
termination_by structural ns => ns

end

mutual

/-- `soup.h1.extract()` restricted to the strict descendants of one node:
find the first `h1` element in pre-order inside `n` and detach it,
returning the detached heading together with the node it was removed
from; `none` when no descendant is an `h1`. -/
def extractH1Node : Node → Option (Node × Node)
  | .text _ => none
  | .elem t c cs =>
    match extractH1List cs with
    | some (h, cs2) => some (h, .elem t c cs2)
    | none => none

/-- `soup.h1.extract()` over a forest: find the first `h1` element in
pre-order (a node before its descendants, descendants before later
siblings) and detach it, returning it with the remaining forest. -/
def extractH1List : List Node → Option (Node × List Node)
  | [] => none
  | n :: ns =>
    if isH1 n then some (n, ns)
    else
      match extractH1Node n with
      | some (h, n2) => some (h, n2 :: ns)
      | none =>
        match extractH1List ns with
        | some (h, ns2) => some (h, n :: ns2)
        | none => none
termination_by structural ns => ns

end

mutual

/-- The forest obtained by removing the first level-1 heading, in
pre-order, from inside a node.  This is the specification-side
description of header removal ("the content remaining under the document
body after the level-1 heading has been removed"), defined independently
of `extractH1Node` and related to it by `extract_eq_removeH1`. -/
def removeH1Node : Node → Node
  | .text s => .text s
  | .elem t c cs => .elem t c (removeH1List cs)
termination_by structural n => n

/-- Remove the first level-1 heading, in pre-order, from a forest. -/
def removeH1List : List Node → List Node
  | [] => []
  | n :: ns =>
    if isH1 n then ns
    else if hasH1 n then removeH1Node n :: ns
    else n :: removeH1List ns
termination_by structural ns => ns

end

mutual

/-- `soup.findAll('span', \x7b'class': 'chord'\x7d)` restricted to one node:
every `span` element whose `class` attribute contains `chord`, in
pre-order document order, the node itself included. -/
def chordSpansNode : Node → List Node
  | .text _ => []
  | .elem t c cs =>
    (if t == "span" && c.contains "chord" then [Node.elem t c cs] else [])
      ++ chordSpansList cs
termination_by structural n => n

/-- All chord spans of a forest, in document order. -/
def chordSpansList : List Node → List Node
  | [] => []
  | n :: ns => chordSpansNode n ++ chordSpansList ns
termination_by structural ns => ns

end

/-- Trim surrounding whitespace from a character list. -/
def stripChars (cs : List Char) : List Char :=
  ((cs.dropWhile Char.isWhitespace).reverse.dropWhile Char.isWhitespace).reverse

/-- Python `s.strip()`: trim surrounding whitespace.  (Implemented on the
character list so that it evaluates by kernel reduction.) -/
def pyStrip (s : String) : String := ⟨stripChars s.data⟩

/-- Python `s.split('-', 1)`: at most one split, at the first occurrence
of the literal character `-` — the part before the first `-` and the part
after it; the whole string when no `-` occurs. -/
def pySplitDash (s : String) : List String :=
  if s.data.contains '-' then
    [⟨s.data.takeWhile (fun c => c ≠ '-')⟩, ⟨(s.data.dropWhile (fun c => c ≠ '-')).drop 1⟩]
  else [s]

/-- Lines 98-102 of `song.py`: `[i.strip() for i in hdr.text.split('-', 1)]`
unpacked into `title, artist`; the `ValueError` of a one-element unpack is
caught and yields `title = hdr.text.strip()`, `artist = None`. -/
def headerSplit (s : String) : String × Option String :=
  match (pySplitDash s).map pyStrip with
  | [t, a] => (t, some a)
  | _ => (pyStrip s, none)

/-- Python `s.split()` followed by `.pop(0)`: `split()` yields the maximal
whitespace-free runs of `s` and `.pop(0)` takes the first of them —
equivalently, drop the leading whitespace and take the leading run; `none`
when `s` has no non-whitespace character (the case in which `.pop(0)`
raises `IndexError` on the empty list). -/
def firstToken (s : String) : Option String :=
  match (s.data.dropWhile Char.isWhitespace).takeWhile (fun c => ¬ c.isWhitespace) with
  | [] => none
  | cs => some ⟨cs⟩

/-- Python `s.lower()` (ASCII case folding suffices here). -/
def pyLower (s : String) : String := ⟨s.data.map Char.toLower⟩

/-- The Python exceptions that the modelled code can raise.
`malformedInput` is the fatal missing-header failure (concretely an
`AttributeError` from `soup.h1.extract()` when `soup.h1` is `None`; the
spec's error taxonomy names this case `MalformedInput`).  `indexError` is
`[].pop(0)` on an empty chord token list; `typeError` is `set.pop(tag)`
called with an argument; `nameError` is a reference to an unbound name. -/
inductive PyError where
  | malformedInput
  | indexError
  | typeError
  | nameError
deriving Repr, DecidableEq

/-- The attributes `Song.__parse` derives from the rendered markup. -/
structure ParseResult where
  title : String
  artist : Option String
  chords : List String
  body : String
deriving Repr, DecidableEq

/-- Lines 108-112 of `song.py`: the chord loop.  For each chord span, take
the first whitespace token of its text (`IndexError` when there is none)
and append it to the accumulated list if not already present. -/
def chordFold : List Node → List String → Except PyError (List String)
  | [], acc => .ok acc
  | c :: cs, acc =>
    match firstToken (Node.innerText c) with
    | none => .error .indexError
    | some name => chordFold cs (if name ∈ acc then acc else acc ++ [name])

/-- Specification-side order-preserving de-duplication: keep each string
at the position of its first occurrence. -/
def dedupFirst : List String → List String
  | [] => []
  | x :: xs => x :: (dedupFirst xs).filter (fun y => y ≠ x)

/-- `Song.__parse`, translated line by line from `song.py` (lines 94-120),
as a function of the rendered document (the children of the `<body>`
element of the HTML produced by the markdown renderer):

* `soup.h1.extract()` — detach the first `h1`; `AttributeError`
  (modelled `malformedInput`) when there is none;
* split the heading's text on the first `-` into stripped
  title/artist, artist `None` when no `-` occurs;
* collect the first token of each chord span of the header-removed
  tree, in document order, without duplicates;
* `body = ''.join(str(x) for x in soup.body.contents)`. -/
def parse (t : List Node) : Except PyError ParseResult :=
  match extractH1List t with
  | none => .error .malformedInput
  | some (hdr, rest) =>
    match chordFold (chordSpansList rest) [] with
    | .error e => .error e
    | .ok chords =>
      .ok { title := (headerSplit (Node.innerText hdr)).1,
            artist := (headerSplit (Node.innerText hdr)).2,
            chords := chords,
            body := String.join (rest.map Node.str) }

/-- The state of a `Song` object after a successful construction.  Tags
are a Python `set` of strings, modelled as a `Finset`. -/
structure Song where
  markup : String
  filename : String
  title : String
  artist : Option String
  chords : List String
  body : String
  tags : Finset String

/-- `Song.__init__` for a `src` that is not a path to an existing file and
with no keyword overrides, with the renderer and HTML reader abstracted as
a deterministic function `render` from markup text to the rendered body's
children (lines 48-68 of `song.py`): `src` is stored as the markup and —
because line 57 assigns `self._filename = src` unconditionally — also as
the filename, then `__parse` runs; the `if self._filename is None` slug
derivation of lines 67-68 cannot fire, since `_filename` already holds
`src`.  A parse exception propagates to the caller and no `Song` is
produced. -/
def Song.construct (render : String → List Node) (src : String) : Except PyError Song :=
  match parse (render src) with
  | .error e => .error e
  | .ok r =>
    .ok { markup := src, filename := src, title := r.title, artist := r.artist,
          chords := r.chords, body := r.body, tags := ∅ }

/-- `Song.tag` (lines 180-182): add the tag when it is not already present. -/
def Song.tag (s : Song) (t : String) : Song :=
  if t ∈ s.tags then s else { s with tags := insert t s.tags }

/-- `Song.untag` (lines 184-186): `if tag in self._tags: self._tags.pop(tag)`.
Python's `set.pop` takes no argument, so the call `pop(tag)` raises
`TypeError` whenever the tag is present; when it is absent the body is
skipped and the song is returned unchanged. -/
def Song.untag (s : Song) (t : String) : Except PyError Song :=
  if t ∈ s.tags then .error .typeError else .ok s

/-- The `artist` property setter (lines 154-156): its body is
`self._artist = artist`, and `artist` is bound neither locally (the
parameter is named `value`) nor at module level, so every call raises
`NameError` and the song is never updated. -/
def Song.setArtist (_s : Song) (_v : String) : Except PyError Song :=
  .error .nameError

/-- The first whitespace-delimited token of the text of each node of a
list, `none` as soon as one node's text has no such token. -/
def firstTokens : List Node → Option (List String)
  | [] => some []
  | n :: ns =>
    match firstToken (Node.innerText n), firstTokens ns with
    | some t, some ts => some (t :: ts)
    | _, _ => none

/-- The accumulator recursion underlying the chord loop, on the token
list alone: append each token to the accumulator unless present. -/
def foldDedup : List String → List String → List String
  | acc, [] => acc
  | acc, t :: ts => foldDedup (if t ∈ acc then acc else acc ++ [t]) ts

/-- A chord span with the given text, as rendered by the ukedown
extension: `<span class="chord">...</span>`. -/
def chordSpan (s : String) : Node :=
  Node.elem "span" ["chord"] [Node.text s]

/-- Example heading: `<h1> Let It Be - The Beatles </h1>`. -/
def exHdr1 : Node := Node.elem "h1" [] [Node.text " Let It Be - The Beatles "]

/-- Example body remainder: one paragraph. -/
def exRest1 : List Node := [Node.elem "p" [] [Node.text "la"]]

/-- Example rendered document with a dashed heading. -/
def exTree1 : List Node := exHdr1 :: exRest1

/-- The parse result of `exTree1`. -/
def exRes1 : ParseResult :=
  { title := "Let It Be", artist := some "The Beatles", chords := [],
    body := "<p>la</p>" }

/-- Example heading for the chord document. -/
def exHdr2 : Node := Node.elem "h1" [] [Node.text "Song - X"]

/-- Example chord spans `[Am, C, "Am x02210", G, C]` in document order. -/
def exRest2 : List Node :=
  [chordSpan "Am", chordSpan "C", chordSpan "Am x02210", chordSpan "G", chordSpan "C"]

/-- Example rendered document with duplicate chords and a fingering. -/
def exTree2 : List Node := exHdr2 :: exRest2

/-- The parse result of `exTree2`. -/
def exRes2 : ParseResult :=
  { title := "Song", artist := some "X", chords := ["Am", "C", "G"],
    body := String.join (exRest2.map Node.str) }

/-- A rendered document with two identical level-1 headings. -/
def exTwoH1 : List Node :=
  [Node.elem "h1" [] [Node.text "T"], Node.elem "h1" [] [Node.text "T"]]

/-- A rendered document with no heading but a whitespace-only chord span. -/
def exNoH1Chord : List Node := [chordSpan "  "]

/-- A rendered document with a heading and a whitespace-only chord span. -/
def exWsChord : List Node := [Node.elem "h1" [] [Node.text "T"], chordSpan " "]

/-- A renderer producing `exTree1` for every markup. -/
def exRender1 : String → List Node := fun _ => exTree1

/-- A renderer producing no level-1 heading. -/
def exRenderNoH1 : String → List Node := fun _ => [Node.elem "p" [] [Node.text "x"]]

/-- The song `Song.construct exRender1 "m"` produces. -/
def exSong1 : Song :=
  { markup := "m", filename := "m", title := "Let It Be",
    artist := some "The Beatles", chords := [], body := "<p>la</p>", tags := ∅ }

/-- A renderer for the filename claim. -/
def exRenderLIB : String → List Node :=
  fun _ => [Node.elem "h1" [] [Node.text "Let It Be - The Beatles"]]

/-- The markup for the filename claim. -/
def exMarkupLIB : String := "# Let It Be - The Beatles\n"

/-- A minimal song for the tagging claims. -/
def exSongT : Song :=
  { markup := "# T\n", filename := "# T\n", title := "T", artist := none,
    chords := [], body := "", tags := ∅ }

mutual

/-- A node is, or contains, an `h1` exactly when it is one or extraction
from inside it succeeds. -/
theorem hasH1_eq_extract (n : Node) : hasH1 n = (isH1 n || (extractH1Node n).isSome) := by
  cases n with
  | text s => rfl
  | elem t c cs =>
    have h := hasH1List_eq_extract cs
    simp only [hasH1, isH1, extractH1Node, h]
    cases hx : extractH1List cs <;> simp [hx]

/-- A forest contains an `h1` exactly when extraction from it succeeds. -/
theorem hasH1List_eq_extract (ns : List Node) : hasH1List ns = (extractH1List ns).isSome := by
  cases ns with
  | nil => rfl
  | cons n ns =>
    have h1 := hasH1_eq_extract n
    have h2 := hasH1List_eq_extract ns
    simp only [hasH1List, extractH1List, h1, h2]
    cases hi : isH1 n
    · cases hn : extractH1Node n <;> cases hx : extractH1List ns <;> simp
    · simp

end

mutual

/-- Detaching the first `h1` from inside a node leaves exactly the node
with that heading removed. -/
theorem extractH1Node_eq_remove (n : Node) :
    ∀ h n2, extractH1Node n = some (h, n2) → n2 = removeH1Node n := by
  cases n with
  | text s => intro h n2 hx; simp [extractH1Node] at hx
  | elem t c cs =>
    intro h n2 hx
    simp only [extractH1Node] at hx
    cases hcs : extractH1List cs with
    | none => rw [hcs] at hx; simp at hx
    | some p =>
      rw [hcs] at hx
      simp only [Option.some.injEq, Prod.mk.injEq] at hx
      obtain ⟨-, rfl⟩ := hx
      rw [removeH1Node, extractH1List_eq_remove cs p.1 p.2 (by rw [hcs])]

/-- Detaching the first `h1` from a forest leaves exactly the forest with
that heading removed. -/
theorem extractH1List_eq_remove (ns : List Node) :
    ∀ h ns2, extractH1List ns = some (h, ns2) → ns2 = removeH1List ns := by
  cases ns with
  | nil => intro h ns2 hx; simp [extractH1List] at hx
  | cons n ns =>
    intro h ns2 hx
    simp only [extractH1List] at hx
    by_cases hi : isH1 n
    · rw [if_pos hi] at hx
      simp only [Option.some.injEq, Prod.mk.injEq] at hx
      obtain ⟨-, rfl⟩ := hx
      rw [removeH1List, if_pos hi]
    · rw [if_neg hi] at hx
      cases hn : extractH1Node n with
      | some p =>
        rw [hn] at hx
        simp only [Option.some.injEq, Prod.mk.injEq] at hx
        obtain ⟨-, rfl⟩ := hx
        have hh : hasH1 n = true := by
          rw [hasH1_eq_extract n, hn]; simp
        rw [removeH1List, if_neg hi, if_pos hh,
            extractH1Node_eq_remove n p.1 p.2 (by rw [hn])]
      | none =>
        rw [hn] at hx
        cases hns : extractH1List ns with
        | none => rw [hns] at hx; simp at hx
        | some q =>
          rw [hns] at hx
          simp only [Option.some.injEq, Prod.mk.injEq] at hx
          obtain ⟨-, rfl⟩ := hx
          have hh : hasH1 n = false := by
            rw [hasH1_eq_extract n, hn]
            simp [hi]
          rw [removeH1List, if_neg hi, if_neg (by simp [hh]),
              extractH1List_eq_remove ns q.1 q.2 (by rw [hns])]

end

/-- When every span has a leading token, the chord loop succeeds and
computes the accumulator fold of the token list. -/
theorem chordFold_ok (spans : List Node) :
    ∀ acc ts, firstTokens spans = some ts → chordFold spans acc = .ok (foldDedup acc ts) := by
  induction spans with
  | nil =>
    intro acc ts h
    simp only [firstTokens, Option.some.injEq] at h
    subst h
    rfl
  | cons c cs ih =>
    intro acc ts h
    simp only [firstTokens] at h
    cases hf : firstToken (Node.innerText c) with
    | none => rw [hf] at h; simp at h
    | some tk =>
      rw [hf] at h
      cases hts : firstTokens cs with
      | none => rw [hts] at h; simp at h
      | some ts2 =>
        rw [hts] at h
        simp only [Option.some.injEq] at h
        subst h
        simp only [chordFold, hf]
        rw [ih _ ts2 hts]
        rfl

/-- When some span has no leading token, the chord loop fails with
`IndexError` whatever the accumulator. -/
theorem chordFold_err (spans : List Node) :
    ∀ acc, firstTokens spans = none → chordFold spans acc = .error PyError.indexError := by
  induction spans with
  | nil => intro acc h; simp [firstTokens] at h
  | cons c cs ih =>
    intro acc h
    simp only [firstTokens] at h
    cases hf : firstToken (Node.innerText c) with
    | none => simp [chordFold, hf]
    | some tk =>
      rw [hf] at h
      cases hts : firstTokens cs with
      | none => simp only [chordFold, hf]; exact ih _ hts
      | some ts2 => rw [hts] at h; simp at h

/-- A member with no leading token makes the whole token list undefined. -/
theorem firstTokens_none_of_mem (ns : List Node) (n : Node) :
    n ∈ ns → firstToken (Node.innerText n) = none → firstTokens ns = none := by
  induction ns with
  | nil => intro h; simp at h
  | cons m ms ih =>
    intro hmem he
    rcases List.mem_cons.mp hmem with rfl | hmem2
    · simp [firstTokens, he]
    · simp only [firstTokens]
      cases hf : firstToken (Node.innerText m)
      · rfl
      · rw [ih hmem2 he]

/-- The accumulator fold is the accumulator followed by the de-duplicated
tokens not already accumulated. -/
theorem foldDedup_eq_filter (ts : List String) :
    ∀ acc, foldDedup acc ts = acc ++ (dedupFirst ts).filter (fun y => y ∉ acc) := by
  induction ts with
  | nil => intro acc; simp [foldDedup, dedupFirst]
  | cons t ts ih =>
    intro acc
    by_cases h : t ∈ acc
    · rw [show foldDedup acc (t :: ts) = foldDedup acc ts from by simp [foldDedup, h], ih]
      simp only [dedupFirst, List.filter_cons]
      rw [if_neg (by simp [h]), List.filter_filter]
      congr 1
      apply List.filter_congr
      intro y _
      by_cases hy : y = t
      · subst hy; simp [h]
      · simp [hy]
    · rw [show foldDedup acc (t :: ts) = foldDedup (acc ++ [t]) ts from by simp [foldDedup, h], ih]
      simp only [dedupFirst, List.filter_cons]
      rw [if_pos (by simp [h]), List.filter_filter, List.append_assoc]
      congr 1
      rw [List.singleton_append]
      congr 1
      apply List.filter_congr
      intro y _
      by_cases hy : y = t
      · subst hy; simp
      · by_cases hm : y ∈ acc <;> simp [hy, hm]

/-- The chord loop started on an empty accumulator computes exactly the
order-preserving de-duplication of the span token list. -/
theorem chordFold_nil_eq_dedup (spans : List Node) (ts : List String)
    (h : firstTokens spans = some ts) :
    chordFold spans [] = .ok (dedupFirst ts) := by
  rw [chordFold_ok spans [] ts h, foldDedup_eq_filter]
  simp

/-- Claim C1: for every rendered markup whose extracted level-1 heading
has text containing `-`, parse sets `title` to the part before the first
`-` trimmed of surrounding whitespace and `artist` to the remainder
trimmed; when the heading text contains no `-`, `title` is the whole text
trimmed and `artist` is absent (`none`, a state distinct from `""`). -/
theorem parse_title_artist_split (t : List Node) (hdr : Node) (rest : List Node)
    (r : ParseResult) (hx : extractH1List t = some (hdr, rest)) (hp : parse t = .ok r) :
    ((Node.innerText hdr).data.contains '-' = true →
      r.title = pyStrip (String.mk ((Node.innerText hdr).data.takeWhile (fun c => c ≠ '-'))) ∧
      r.artist = some (pyStrip (String.mk
        (((Node.innerText hdr).data.dropWhile (fun c => c ≠ '-')).drop 1)))) ∧
    ((Node.innerText hdr).data.contains '-' = false →
      r.title = pyStrip (Node.innerText hdr) ∧ r.artist = none) := by
  simp only [parse, hx] at hp
  cases hcf : chordFold (chordSpansList rest) [] with
  | error e => rw [hcf] at hp; simp at hp
  | ok cl =>
    rw [hcf] at hp
    simp only [Except.ok.injEq] at hp
    subst hp
    constructor
    · intro hc
      have hc2 : '-' ∈ (Node.innerText hdr).data := by simpa using hc
      simp [headerSplit, pySplitDash, hc2]
    · intro hc
      have hc2 : '-' ∉ (Node.innerText hdr).data := by simpa using hc
      simp [headerSplit, pySplitDash, hc2]

/-- Claim C1, witness: on `# Let It Be - The Beatles` (with surrounding
spaces in the heading text) the parsed title and artist are the two
trimmed halves. -/
theorem parse_title_artist_split_witness :
    exRes1.title = "Let It Be" ∧ exRes1.artist = some "The Beatles" := by
  have h := (parse_title_artist_split exTree1 exHdr1 exRest1 exRes1 rfl rfl).1 rfl
  exact ⟨h.1.trans rfl, h.2.trans rfl⟩

/-- Claim C2: the parsed chord list is the order-preserving
de-duplication of the first whitespace-delimited tokens of the chord
spans' texts, taken in document order over the header-removed tree. -/
theorem parse_chords_dedup (t : List Node) (hdr : Node) (rest : List Node)
    (r : ParseResult) (ts : List String) (hx : extractH1List t = some (hdr, rest))
    (hts : firstTokens (chordSpansList rest) = some ts) (hp : parse t = .ok r) :
    r.chords = dedupFirst ts := by
  simp only [parse, hx] at hp
  rw [chordFold_nil_eq_dedup _ _ hts] at hp
  simp only [Except.ok.injEq] at hp
  subst hp
  rfl

/-- Claim C2, witness: spans `[Am, C, "Am x02210", G, C]` have token list
`[Am, C, Am, G, C]` and yield chords `[Am, C, G]` — duplicates dropped at
first occurrence and only the leading token of `"Am x02210"` kept. -/
theorem parse_chords_dedup_witness :
    exRes2.chords = dedupFirst ["Am", "C", "Am", "G", "C"] ∧
    exRes2.chords = ["Am", "C", "G"] :=
  ⟨parse_chords_dedup exTree2 exHdr2 exRest2 exRes2 ["Am", "C", "Am", "G", "C"] rfl rfl rfl,
   rfl⟩

/-- Claim C3 (amended): the parsed body is the concatenation, in document
order with no added separators, of the string forms of the children
remaining after the first level-1 heading has been removed.  (The claim's
further consequence that the body never contains the header's text or
markup fails when the document holds a second identical heading: see the
counterexample.) -/
theorem parse_body_join_after_remove (t : List Node) (r : ParseResult)
    (hp : parse t = .ok r) :
    r.body = String.join ((removeH1List t).map Node.str) := by
  cases hx : extractH1List t with
  | none => simp [parse, hx] at hp
  | some p =>
    obtain ⟨hdr, rest⟩ := p
    simp only [parse, hx] at hp
    cases hcf : chordFold (chordSpansList rest) [] with
    | error e => rw [hcf] at hp; simp at hp
    | ok cl =>
      rw [hcf] at hp
      simp only [Except.ok.injEq] at hp
      subst hp
      rw [← extractH1List_eq_remove t hdr rest hx]

/-- Claim C3, witness: for the dashed-heading document the body is the
serialized remainder `<p>la</p>`. -/
theorem parse_body_join_after_remove_witness :
    exRes1.body = String.join ((removeH1List exTree1).map Node.str) :=
  parse_body_join_after_remove exTree1 exRes1 rfl

/-- Claim C3, counterexample: a rendered document with two identical
level-1 headings `<h1>T</h1>` parses successfully, the extracted header
serializes to `<h1>T</h1>`, and the resulting body is exactly that string
— the body does contain the header's text and markup. -/
theorem parse_body_header_markup_cex :
    extractH1List exTwoH1 =
      some (Node.elem "h1" [] [Node.text "T"], [Node.elem "h1" [] [Node.text "T"]]) ∧
    Node.str (Node.elem "h1" [] [Node.text "T"]) = "<h1>T</h1>" ∧
    parse exTwoH1 = .ok { title := "T", artist := none, chords := [], body := "<h1>T</h1>" } :=
  ⟨rfl, rfl, rfl⟩

/-- Claim C4: when the rendered output contains no level-1 heading,
parsing fails with the missing-header error (the spec's
`MalformedInput`; concretely the `AttributeError` of `soup.h1.extract()`
on `None`), the failure propagates synchronously out of the constructor,
and no Song is produced. -/
theorem construct_missing_header_malformed (render : String → List Node) (M : String)
    (h : hasH1List (render M) = false) :
    Song.construct render M = .error PyError.malformedInput := by
  have hx : extractH1List (render M) = none := by
    cases hx : extractH1List (render M) with
    | none => rfl
    | some p => rw [hasH1List_eq_extract, hx] at h; simp at h
  simp [Song.construct, parse, hx]

/-- Claim C4, witness: a renderer producing only a paragraph makes
construction fail with the missing-header error. -/
theorem construct_missing_header_malformed_witness :
    Song.construct exRenderNoH1 "hello" = .error PyError.malformedInput :=
  construct_missing_header_malformed exRenderNoH1 "hello" rfl

/-- Claim C5: a Song constructed from markup `M` (not a path to an
existing file) stores `markup = M` unchanged, and re-constructing from the
stored markup — the renderer being a deterministic function — yields the
same song, so identical title, artist, chords and body. -/
theorem construct_roundtrip (render : String → List Node) (M : String) (s : Song)
    (h : Song.construct render M = .ok s) :
    s.markup = M ∧ Song.construct render s.markup = .ok s := by
  have hm : s.markup = M := by
    simp only [Song.construct] at h
    cases hp : parse (render M) with
    | error e => rw [hp] at h; simp at h
    | ok r =>
      rw [hp] at h
      simp only [Except.ok.injEq] at h
      subst h
      rfl
  exact ⟨hm, by rw [hm]; exact h⟩

/-- Claim C5, witness: round-trip at a concrete renderer and markup. -/
theorem construct_roundtrip_witness :
    exSong1.markup = "m" ∧ Song.construct exRender1 exSong1.markup = .ok exSong1 :=
  construct_roundtrip exRender1 "m" exSong1 rfl

/-- Claim C6 (code bug): a Song built from markup with no filename
keyword gets `filename` equal to the whole markup text, not the derived
slug `lower(title + "_-_" + artist)` — line 57's unconditional
`self._filename = src` makes the `if self._filename is None` derivation
of lines 67-68 unreachable.  Here, on `# Let It Be - The Beatles`, the
filename is the markup itself while the claimed slug would be
`let it be_-_the beatles`. -/
theorem construct_filename_is_markup_not_slug :
    (Song.construct exRenderLIB exMarkupLIB).map Song.filename = .ok exMarkupLIB ∧
    (Song.construct exRenderLIB exMarkupLIB).map Song.title = .ok "Let It Be" ∧
    (Song.construct exRenderLIB exMarkupLIB).map Song.artist = .ok (some "The Beatles") ∧
    pyLower ("Let It Be" ++ "_-_" ++ "The Beatles") = "let it be_-_the beatles" ∧
    exMarkupLIB ≠ "let it be_-_the beatles" :=
  ⟨rfl, rfl, rfl, rfl, by decide⟩

/-- Claim C7 (code bug): the `artist` setter's body is
`self._artist = artist` with `artist` unbound, so every assignment
`s.artist = v` raises `NameError`; the artist is never updated, contrary
to the spec's freely-settable contract (the `title` setter, by contrast,
correctly assigns `value`). -/
theorem setArtist_raises_nameerror (s : Song) (v : String) :
    Song.setArtist s v = .error PyError.nameError ∧
    ∀ s2 : Song, Song.setArtist s v ≠ .ok s2 :=
  ⟨rfl, fun _ h => Except.noConfusion h⟩

/-- Claim C8: `untag t` on a Song whose tags do not contain `t` returns
normally — the `if tag in self._tags` guard is false, so the faulty
`pop(tag)` is never reached — and the tags are unchanged. -/
theorem untag_absent_noop (s : Song) (t : String) (h : t ∉ s.tags) :
    Song.untag s t = .ok s := by
  simp [Song.untag, h]

/-- Claim C8, witness: untagging a fresh Song with empty tags. -/
theorem untag_absent_noop_witness : Song.untag exSongT "x" = .ok exSongT :=
  untag_absent_noop exSongT "x" (by simp [exSongT])

/-- Claim C9: `untag t` on a Song whose tags contain `t` reaches
`self._tags.pop(tag)`; Python's `set.pop` accepts no argument, so the
call raises `TypeError`, no updated Song results, and the tag is never
removed. -/
theorem untag_present_typeerror (s : Song) (t : String) (h : t ∈ s.tags) :
    Song.untag s t = .error PyError.typeError ∧
    ∀ s2 : Song, Song.untag s t ≠ .ok s2 := by
  refine ⟨by simp [Song.untag, h], fun s2 hc => ?_⟩
  simp [Song.untag, h] at hc

/-- Claim C9, witness: after `tag "x"`, `untag "x"` raises `TypeError`. -/
theorem untag_present_typeerror_witness :
    Song.untag (Song.tag exSongT "x") "x" = .error PyError.typeError :=
  (untag_present_typeerror (Song.tag exSongT "x") "x" (by simp [Song.tag, exSongT])).1

/-- Claim C10 (amended): when the rendered output has a level-1 heading
and, after that heading's removal, some chord span whose text is empty or
whitespace-only (its first token does not exist), parsing fails with the
unguarded `IndexError` of `.split().pop(0)`. -/
theorem parse_empty_chord_span_indexerror (t : List Node) (hdr : Node)
    (rest : List Node) (n : Node) (hx : extractH1List t = some (hdr, rest))
    (hn : n ∈ chordSpansList rest) (he : firstToken (Node.innerText n) = none) :
    parse t = .error PyError.indexError := by
  have hft : firstTokens (chordSpansList rest) = none :=
    firstTokens_none_of_mem _ n hn he
  simp only [parse, hx]
  rw [chordFold_err _ [] hft]

/-- Claim C10 (amended), witness: a document with a heading and a chord
span of text `" "` fails with `IndexError`. -/
theorem parse_empty_chord_span_indexerror_witness :
    parse exWsChord = .error PyError.indexError :=
  parse_empty_chord_span_indexerror exWsChord (Node.elem "h1" [] [Node.text "T"])
    [chordSpan " "] (chordSpan " ") rfl (List.Mem.head _) rfl

/-- Claim C10, counterexample: a rendered output that does contain a
whitespace-only chord span but no level-1 heading fails with the
missing-header error at `soup.h1.extract()`, before the chord loop runs —
not with `IndexError` as the unconditional claim states. -/
theorem parse_empty_chord_span_cex :
    (chordSpansList exNoH1Chord).map Node.innerText = ["  "] ∧
    firstToken "  " = none ∧
    parse exNoH1Chord = .error PyError.malformedInput ∧
    PyError.malformedInput ≠ PyError.indexError :=
  ⟨rfl, rfl, rfl, by decide⟩

end Songbook
